import Mathlib

/-!
Shallow embedding of the case lifecycle and reconciliation engine of the
shakti loan-recovery case tracker: the payment ledger (recordPayment), the
assignment engine (assignCase), the bulk reconciliation processor
(createBulkCases), the spreadsheet import (parseExcelFile) and the
call/status log submit handler (handleStatusUpdateSubmit).

Amounts are modelled as rationals; stored textual amounts are parsed by a
model of the JavaScript parseFloat on plain decimal literals (an
unparsable string yields none, standing for NaN; every comparison of NaN
in the source is false, which the embedding reproduces by matching on the
option). Storage effects are modelled by explicit state passing on a
CaseDB value together with boolean oracles telling which storage calls
succeed; a JavaScript throw is an Except.error carrying the thrown
message.
-/

namespace Shakti

/-- Working status of a case (the `status` column of customer cases). -/
inductive Status where
  | new
  | assigned
  | in_progress
  | closed
deriving DecidableEq, Repr

/-- The fields of a customer case that the engine reads or writes.
`case_data_EMPID` models `case_data?.EMPID` (the extension map entry used
for auto-assignment), already coerced by `String(...)` as the source does. -/
structure CustomerCase where
  telecaller_id : Option String
  assigned_employee_id : Option String
  team_id : Option String
  status : Option Status
  case_status : Option String
  outstanding_amount : Option String
  total_collected_amount : Option ℚ
  loan_id : Option String
  case_data_EMPID : Option String
deriving DecidableEq, Repr

/-- One call-log row (a `case_call_logs` record). `amount_collected` is
stored textually by the source (`String(amount)`); the embedding keeps the
numeric value. -/
structure CallLog where
  case_id : String
  employee_id : String
  call_status : String
  ptp_date : Option String
  call_notes : Option String
  call_duration : Option Nat
  amount_collected : Option ℚ
deriving DecidableEq, Repr

/-- Storage state for one case: the case row and its call-log rows, append
order oldest first. -/
structure CaseDB where
  theCase : CustomerCase
  logs : List CallLog
deriving DecidableEq, Repr

/-- An employee-directory row as read by the engine. -/
structure Employee where
  id : String
  emp_id : String
deriving DecidableEq, Repr

/-- The `CaseAssignment` argument of assignCase. -/
structure CaseAssignment where
  telecallerId : Option String
deriving DecidableEq, Repr

/-- One tenant column configuration: internal key and display label. -/
structure ColumnConfiguration where
  column_name : String
  display_name : String
deriving DecidableEq, Repr

/-- The summary returned by createBulkCases. An error entry keeps the
1-based row number and the message. -/
structure CaseUploadResult where
  totalUploaded : Nat
  autoAssigned : Nat
  unassigned : Nat
  errors : List (Nat × String)
deriving DecidableEq, Repr

/-! ### JavaScript string and number helpers -/

/-- Decimal digits to a natural number, most significant first. -/
def digitsToNat (l : List Char) : Nat :=
  l.foldl (fun a c => a * 10 + (c.toNat - 48)) 0

/-- Model of JavaScript parseFloat on plain decimal literals: leading
whitespace is skipped, an optional sign, then the longest prefix of the
shape digits, digits.digits or .digits is read; none models NaN (no
numeric prefix at all). Exponent forms are not modelled; the engine only
ever parses stored amount columns. -/
def jsParseFloat (s : String) : Option ℚ :=
  let cs := s.toList.dropWhile Char.isWhitespace
  let signed : Int × List Char :=
    match cs with
    | '-' :: t => (-1, t)
    | '+' :: t => (1, t)
    | _ => (1, cs)
  let intPart := signed.2.takeWhile Char.isDigit
  let rest := signed.2.dropWhile Char.isDigit
  let fracPart : List Char :=
    match rest with
    | '.' :: t => t.takeWhile Char.isDigit
    | _ => []
  if intPart.isEmpty ∧ fracPart.isEmpty then none
  else some (mkRat
    (signed.1 * (digitsToNat intPart * 10 ^ fracPart.length + digitsToNat fracPart))
    (10 ^ fracPart.length))

/-- `x || '0'` on a stored textual amount: undefined/null and the empty
string (the JavaScript falsy strings) default to "0". -/
def jsOrZero : Option String → String
  | none => "0"
  | some s => if s == "" then "0" else s

/-- JavaScript `.toLowerCase()`, character by character. -/
def jsLower (s : String) : String :=
  String.mk (s.toList.map Char.toLower)

/-- JavaScript `.trim()`: strip leading and trailing whitespace. -/
def jsTrim (s : String) : String :=
  String.mk (((s.toList.dropWhile Char.isWhitespace).reverse.dropWhile
    Char.isWhitespace).reverse)

/-- `.toLowerCase().trim()`, the normalization the import applies to
headers and configured display names. -/
def jsLowerTrim (s : String) : String :=
  jsTrim (jsLower s)

/-! ### Payment ledger: customerCaseService.recordPayment -/

/-- The PAYMENT_RECEIVED call-log row inserted by recordPayment. -/
def paymentLogEntry (caseId employeeId : String) (amount : ℚ) (notes : String) : CallLog :=
  { case_id := caseId
    employee_id := employeeId
    call_status := "PAYMENT_RECEIVED"
    ptp_date := none
    call_notes := some notes
    call_duration := none
    amount_collected := some amount }

/-- customerCaseService.recordPayment: fetch the case, compute the new
running total, decide closure by parsing the outstanding amount, insert
the PAYMENT_RECEIVED log, then update the case. The three booleans tell
whether the fetch, the log insert and the case update succeed; the result
pair is the returned/thrown value and the storage state left behind. -/
def recordPayment (caseId employeeId : String) (amount : ℚ) (notes : String)
    (fetchOk logOk updateOk : Bool) (db : CaseDB) :
    Except String CustomerCase × CaseDB :=
  if fetchOk = false then (Except.error "Failed to fetch case details", db) else
  let currentCase := db.theCase
  let currentCollected := currentCase.total_collected_amount.getD 0
  let newTotalCollected := currentCollected + amount
  let outstandingAmount := jsParseFloat (jsOrZero currentCase.outstanding_amount)
  let shouldCloseCase : Bool :=
    match outstandingAmount with
    | none => false
    | some o => decide (o - newTotalCollected ≤ 0)
  if logOk = false then (Except.error "Failed to record payment log", db) else
  let logs2 := db.logs ++ [paymentLogEntry caseId employeeId amount notes]
  let newCase : CustomerCase :=
    { currentCase with
      total_collected_amount := some newTotalCollected
      case_status := if shouldCloseCase then some "closed" else currentCase.case_status
      status := if shouldCloseCase then some Status.closed else currentCase.status }
  if updateOk = false then (Except.error "Failed to update case", ⟨currentCase, logs2⟩)
  else (Except.ok newCase, ⟨newCase, logs2⟩)

/-- The closure decision of recordPayment, named for the proofs:
`remaining = outstanding - newTotal ≤ 0`, false when parsing gave NaN. -/
def rpShouldClose (amount : ℚ) (db : CaseDB) : Bool :=
  match jsParseFloat (jsOrZero db.theCase.outstanding_amount) with
  | none => false
  | some o => decide (o - (db.theCase.total_collected_amount.getD 0 + amount) ≤ 0)

/-- The case row written back by a successful recordPayment. -/
def rpNewCase (amount : ℚ) (db : CaseDB) : CustomerCase :=
  { db.theCase with
    total_collected_amount := some (db.theCase.total_collected_amount.getD 0 + amount)
    case_status := if rpShouldClose amount db then some "closed" else db.theCase.case_status
    status := if rpShouldClose amount db then some Status.closed else db.theCase.status }

/-- The running total stored on the case, read the way the source reads it
(`total_collected_amount || 0`). -/
def collectedTotal (db : CaseDB) : ℚ :=
  db.theCase.total_collected_amount.getD 0

/-- A finite sequence of payments (amount, notes) applied through
recordPayment with all storage calls succeeding. -/
def runPayments (caseId employeeId : String) (ps : List (ℚ × String)) (db : CaseDB) : CaseDB :=
  ps.foldl (fun d p => (recordPayment caseId employeeId p.1 p.2 true true true d).2) db

/-! ### Assignment engine: customerCaseService.assignCase -/

/-- customerCaseService.assignCase: with a telecaller id, resolve the
telecaller (`.single()`, failing when absent) and set assignment fields
and working status to assigned; with none, clear both fields and set
working status to new. The case row itself is only written, never
inspected: no field of the current case is read. -/
def assignCase (c : CustomerCase) (assignment : CaseAssignment)
    (employees : List Employee) : Except String CustomerCase :=
  match assignment.telecallerId with
  | some tid =>
    match employees.find? (fun e => e.id == tid) with
    | none => Except.error "Failed to find telecaller details"
    | some tel =>
      Except.ok
        { c with
          telecaller_id := some tid
          assigned_employee_id := if tel.emp_id == "" then none else some tel.emp_id
          status := some Status.assigned }
  | none =>
    Except.ok
      { c with
        telecaller_id := none
        assigned_employee_id := none
        status := some Status.new }

/-! ### Bulk reconciliation processor: customerCaseService.createBulkCases -/

/-- telecallerMap.get on the roster (emp_id to employee id). -/
def lookupTelecaller (telecallerMap : List (String × String)) (empId : String) :
    Option String :=
  (telecallerMap.find? (fun p => p.1 == empId)).map (fun p => p.2)

/-- The else branch of the per-row auto-assignment: clear both assignment
fields and set working status to new. -/
def clearAssignment (c : CustomerCase) : CustomerCase :=
  { c with
    telecaller_id := none
    assigned_employee_id := none
    status := some Status.new }

/-- The per-row auto-assignment of createBulkCases: when the row carries a
truthy EMPID that the roster knows, set telecaller_id, the denormalized
assigned_employee_id and working status assigned; otherwise clear them and
set working status new. The boolean reports which branch ran (it drives
the autoAssigned/unassigned counters). -/
def processRowAssign (telecallerMap : List (String × String)) (c : CustomerCase) :
    CustomerCase × Bool :=
  match c.case_data_EMPID with
  | some empid =>
    if empid == "" then (clearAssignment c, false)
    else
      match lookupTelecaller telecallerMap empid with
      | some telId =>
        ({ c with
            telecaller_id := some telId
            assigned_employee_id := some empid
            status := some Status.assigned }, true)
      | none => (clearAssignment c, false)
  | none => (clearAssignment c, false)

/-- The sequential row loop of createBulkCases, carried by the 0-based row
index. `upsertOk i` tells whether the upsert of row i succeeds; a failed
row is recorded as (1-based row number, message) and the loop continues.
Returns the summary and the list of case rows as sent to the upsert. -/
def bulkLoop (telecallerMap : List (String × String)) (upsertOk : Nat → Bool) :
    Nat → List CustomerCase → CaseUploadResult × List CustomerCase
  | _, [] => (⟨0, 0, 0, []⟩, [])
  | i, c :: rest =>
    let pr := processRowAssign telecallerMap c
    let restR := bulkLoop telecallerMap upsertOk (i + 1) rest
    let r1 :=
      if pr.2 then { restR.1 with autoAssigned := restR.1.autoAssigned + 1 }
      else { restR.1 with unassigned := restR.1.unassigned + 1 }
    let r2 :=
      if upsertOk i then { r1 with totalUploaded := r1.totalUploaded + 1 }
      else { r1 with errors := (i + 1, "upsert failed") :: r1.errors }
    (r2, pr.1 :: restR.2)

/-- customerCaseService.createBulkCases, given the active-telecaller
roster already loaded into the lookup map. -/
def createBulkCases (telecallerMap : List (String × String))
    (cases : List CustomerCase) (upsertOk : Nat → Bool) :
    CaseUploadResult × List CustomerCase :=
  bulkLoop telecallerMap upsertOk 0 cases

/-! ### Spreadsheet import: excelUtils.parseExcelFile -/

/-- A spreadsheet cell after sheet_to_json: none models an undefined/empty
cell, some s a cell whose `.toString()` rendering is s. -/
abbrev Cell := Option String

/-- `String(h || '')`. -/
def cellStr (c : Cell) : String := c.getD ""

/-- JavaScript truthiness of a cell: undefined and the empty string are
falsy. -/
def cellTruthy (c : Cell) : Bool :=
  match c with
  | none => false
  | some s => !(s == "")

/-- A parsed import row: the trimmed EMPID value plus one entry per mapped
internal key. -/
structure ParsedRow where
  EMPID : String
  fields : List (String × String)
deriving DecidableEq, Repr

/-- `headers.findIndex(h => String(h || '').toLowerCase().trim() === 'empid')`. -/
def findEmpIdIndex (headers : List Cell) : Option Nat :=
  headers.findIdx? (fun h => jsLowerTrim (cellStr h) == "empid")

/-- Match one header against the configured display names,
case-insensitively and trimmed. -/
def matchColumn (cols : List ColumnConfiguration) (header : String) :
    Option ColumnConfiguration :=
  cols.find? (fun col => jsLowerTrim col.display_name == jsLowerTrim header)

/-- Whether an indexed header produces a column mapping: not the EMPID
column, truthy, and matched by configuration. -/
def headerMapped (cols : List ColumnConfiguration) (empIdIndex : Nat)
    (p : Nat × Cell) : Bool :=
  (!(p.1 == empIdIndex)) && cellTruthy p.2 && (matchColumn cols (cellStr p.2)).isSome

/-- The data-row filter of parseExcelFile:
`row && row.length > 0 && row[empIdIndex]`. -/
def rowKeep (empIdIndex : Nat) (row : List Cell) : Bool :=
  decide (0 < row.length) && cellTruthy (row.getD empIdIndex none)

/-- Build one parsed row: the trimmed EMPID cell plus, for every mapped
header, the trimmed cell value (empty string for a missing cell). -/
def mkParsedRow (empIdIndex : Nat) (headers : List Cell)
    (cols : List ColumnConfiguration) (row : List Cell) : ParsedRow :=
  { EMPID := jsTrim (cellStr (row.getD empIdIndex none))
    fields := headers.enum.filterMap (fun p =>
      if p.1 ≠ empIdIndex ∧ cellTruthy p.2 = true then
        match matchColumn cols (cellStr p.2) with
        | some col => some (col.column_name,
            match row.getD p.1 none with
            | some v => jsTrim v
            | none => "")
        | none => none
      else none) }

/-- excelUtils.parseExcelFile on the sheet_to_json matrix: reject a file
without data rows, locate the EMPID header anywhere in the header row,
reject when no other header maps, then keep exactly the data rows whose
EMPID cell is truthy. -/
def parseExcelFile (jsonData : List (List Cell)) (cols : List ColumnConfiguration) :
    Except String (List ParsedRow) :=
  if jsonData.length < 2 then
    Except.error "Excel file is empty or has no data rows"
  else
    let headers := jsonData.headD []
    let rows := jsonData.tail
    match findEmpIdIndex headers with
    | none =>
      Except.error "EMPID column not found in Excel file. Please ensure the first column is named \"EMPID\" (case insensitive)."
    | some empIdIndex =>
      if (headers.enum.filter (headerMapped cols empIdIndex)).length == 0 then
        Except.error "No columns in the Excel file match your product\x27s column configuration. Please download a fresh template for this product."
      else
        Except.ok ((rows.filter (fun r => rowKeep empIdIndex r)).map
          (mkParsedRow empIdIndex headers cols))

/-! ### Call/status log: handleStatusUpdateSubmit -/

/-- The call-log row inserted by a status-update submit: the chosen
outcome code, the remarks, and the promise-to-pay timestamp assembled from
date and time inputs. -/
def statusLogEntry (caseId userId callStatus ptpDate ptpTime remarks : String) : CallLog :=
  { case_id := caseId
    employee_id := userId
    call_status := callStatus
    ptp_date :=
      if !(ptpDate == "") && !(ptpTime == "") then
        some (ptpDate ++ "T" ++ ptpTime ++ ":00")
      else if !(ptpDate == "") then some (ptpDate ++ "T00:00:00")
      else none
    call_notes := some remarks
    call_duration := none
    amount_collected := none }

/-- handleStatusUpdateSubmit: validate the form (case and user present,
outcome and remarks non-empty, a PTP date for promise-to-pay outcomes),
append the call-log row, then update the case with status in_progress. -/
def handleStatusUpdateSubmit (caseId userId : Option String)
    (callStatus ptpDate ptpTime remarks : String) (db : CaseDB) :
    Except String CaseDB :=
  match caseId, userId with
  | some cid, some uid =>
    if callStatus == "" || jsTrim remarks == "" then
      Except.error "Please fill in all required fields"
    else if (callStatus == "PTP" || callStatus == "FUTURE_PTP") && ptpDate == "" then
      Except.error "PTP Date is required for Promise to Pay"
    else
      Except.ok
        { theCase := { db.theCase with status := some Status.in_progress }
          logs := db.logs ++ [statusLogEntry cid uid callStatus ptpDate ptpTime remarks] }
  | _, _ => Except.error "Missing case or user information"

/-! ### Concrete fixtures for witnesses and counterexamples -/

/-- A plain open case: outstanding 1000, collected 800 (the scenario of
the specification). -/
def db0 : CaseDB :=
  { theCase :=
      { telecaller_id := none
        assigned_employee_id := none
        team_id := none
        status := some Status.in_progress
        case_status := some "pending"
        outstanding_amount := some "1000"
        total_collected_amount := some 800
        loan_id := some "LN1"
        case_data_EMPID := none }
    logs := [] }

/-- A case whose outstanding amount is unknown (missing). -/
def dbU : CaseDB :=
  { theCase :=
      { telecaller_id := none
        assigned_employee_id := none
        team_id := none
        status := some Status.in_progress
        case_status := some "pending"
        outstanding_amount := none
        total_collected_amount := some 0
        loan_id := some "LN2"
        case_data_EMPID := none }
    logs := [] }

/-- A case whose stored outstanding amount is non-numeric. -/
def dbN : CaseDB :=
  { theCase :=
      { telecaller_id := none
        assigned_employee_id := none
        team_id := none
        status := some Status.in_progress
        case_status := some "pending"
        outstanding_amount := some "abc"
        total_collected_amount := some 0
        loan_id := some "LN3"
        case_data_EMPID := none }
    logs := [] }

/-- A closed case (both lifecycle and working status closed). -/
def closedCase : CustomerCase :=
  { telecaller_id := some "t9"
    assigned_employee_id := some "E9"
    team_id := none
    status := some Status.closed
    case_status := some "closed"
    outstanding_amount := some "1000"
    total_collected_amount := some 1000
    loan_id := some "LN4"
    case_data_EMPID := none }

/-- An assigned case on which first contact has not yet been logged. -/
def assignedCase : CustomerCase :=
  { telecaller_id := some "t1"
    assigned_employee_id := some "E1"
    team_id := none
    status := some Status.assigned
    case_status := some "pending"
    outstanding_amount := some "500"
    total_collected_amount := some 0
    loan_id := some "LN5"
    case_data_EMPID := some "E1" }

/-- A telecaller directory row. -/
def tele1 : Employee := { id := "t1", emp_id := "E1" }

/-! ### Payment ledger lemmas -/

/-- The success path of recordPayment, written with the named closure
decision and result row. -/
theorem recordPayment_ok_eq (caseId employeeId : String) (amount : ℚ) (notes : String)
    (db : CaseDB) :
    recordPayment caseId employeeId amount notes true true true db =
      (Except.ok (rpNewCase amount db),
        ⟨rpNewCase amount db, db.logs ++ [paymentLogEntry caseId employeeId amount notes]⟩) :=
  rfl

/-- Claim C1: recording a payment of amount a > 0 on a case with current
total C sets the stored running total to C + a; with the outstanding
amount parsed from its textual representation to a value o, if the
remaining balance o - (C + a) is ≤ 0 both the working status and the
lifecycle status become closed, and if it is > 0 the lifecycle status is
left unchanged. -/
theorem recordPayment_total_and_closure (caseId employeeId notes : String)
    (db : CaseDB) (a C : ℚ)
    (hC : db.theCase.total_collected_amount = some C) (ha : 0 < a) :
    ((recordPayment caseId employeeId a notes true true true db).2.theCase.total_collected_amount
        = some (C + a)) ∧
    (∀ o : ℚ, jsParseFloat (jsOrZero db.theCase.outstanding_amount) = some o →
      (o - (C + a) ≤ 0 →
        (recordPayment caseId employeeId a notes true true true db).2.theCase.case_status
            = some "closed" ∧
        (recordPayment caseId employeeId a notes true true true db).2.theCase.status
            = some Status.closed) ∧
      (0 < o - (C + a) →
        (recordPayment caseId employeeId a notes true true true db).2.theCase.case_status
            = db.theCase.case_status)) := by
  refine ⟨?_, ?_⟩
  · rw [recordPayment_ok_eq]
    simp [rpNewCase, hC]
  · intro o ho
    have hsc : rpShouldClose a db = decide (o - (C + a) ≤ 0) := by
      simp [rpShouldClose, ho, hC]
    constructor
    · intro h
      rw [recordPayment_ok_eq]
      simp [rpNewCase, hsc, h]
    · intro h
      rw [recordPayment_ok_eq]
      simp [rpNewCase, hsc, not_le.mpr h]

/-- Witness for C1 at the specification scenario: outstanding "1000",
collected 800, a payment of 200 closes the case and sets the total to
800 + 200. -/
theorem recordPayment_total_and_closure_witness :
    ((recordPayment "c1" "e1" 200 "note" true true true db0).2.theCase.total_collected_amount
        = some (800 + 200)) ∧
    ((recordPayment "c1" "e1" 200 "note" true true true db0).2.theCase.case_status
        = some "closed") := by
  have h := recordPayment_total_and_closure "c1" "e1" "note" db0 200 800 rfl (by norm_num)
  have hp : jsParseFloat (jsOrZero db0.theCase.outstanding_amount) = some 1000 := by
    rw [show jsParseFloat (jsOrZero db0.theCase.outstanding_amount)
        = some (mkRat 1000 1) from rfl]
    norm_num [mkRat]
  exact ⟨h.1, ((h.2 1000 hp).1 (by norm_num)).1⟩

/-- One successful recordPayment adds exactly the amount to the running
total read back with the source's `|| 0` default. -/
theorem collectedTotal_recordPayment (caseId employeeId notes : String) (a : ℚ)
    (db : CaseDB) :
    collectedTotal (recordPayment caseId employeeId a notes true true true db).2
      = collectedTotal db + a := by
  rw [recordPayment_ok_eq]
  simp [collectedTotal, rpNewCase]

/-- Claim C4: across any finite sequence of recordPayment calls with
positive amounts, the stored running total after each call is at least its
value before that call. -/
theorem recordPayment_total_monotone (caseId employeeId : String) (db : CaseDB)
    (ps : List (ℚ × String)) (hpos : ∀ p ∈ ps, 0 < p.1) (i : ℕ) (hi : i < ps.length) :
    collectedTotal (runPayments caseId employeeId (ps.take i) db)
      ≤ collectedTotal (runPayments caseId employeeId (ps.take (i + 1)) db) := by
  have htake : ps.take (i + 1) = ps.take i ++ [ps[i]] := by
    rw [List.take_succ]
    simp [List.getElem?_eq_getElem hi]
  rw [htake]
  unfold runPayments
  rw [List.foldl_append]
  have hstep := collectedTotal_recordPayment caseId employeeId (ps[i]).2 (ps[i]).1
    (runPayments caseId employeeId (ps.take i) db)
  simp only [List.foldl_cons, List.foldl_nil]
  rw [runPayments] at hstep
  rw [hstep]
  have : 0 < (ps[i]).1 := hpos _ (List.getElem_mem hi)
  linarith

/-- Witness for C4: one payment of 100 on the fixture case does not
decrease the running total. -/
theorem recordPayment_total_monotone_witness :
    collectedTotal (runPayments "c1" "e1" (([((100 : ℚ), "n")]).take 0) db0)
      ≤ collectedTotal (runPayments "c1" "e1" (([((100 : ℚ), "n")]).take 1) db0) := by
  refine recordPayment_total_monotone "c1" "e1" db0 [((100 : ℚ), "n")] ?_ 0 (by norm_num)
  intro p hp
  rw [List.mem_singleton] at hp
  rw [hp]
  norm_num

/-- Counterexample to claim C5 as stated: with the case update failing
after the log insert succeeded, recordPayment throws, yet the
PAYMENT_RECEIVED log row persists while the case row is unchanged. -/
theorem recordPayment_partial_state_cex :
    (recordPayment "c1" "e1" 200 "note" true true false db0).1
        = Except.error "Failed to update case" ∧
    (recordPayment "c1" "e1" 200 "note" true true false db0).2.theCase
        = db0.theCase ∧
    (recordPayment "c1" "e1" 200 "note" true true false db0).2.logs
        = [paymentLogEntry "c1" "e1" 200 "note"] ∧
    (paymentLogEntry "c1" "e1" 200 "note").call_status = "PAYMENT_RECEIVED" :=
  ⟨rfl, rfl, rfl, rfl⟩

/-- Claim C5 amended: recordPayment inserts the PAYMENT_RECEIVED log
before the case update and performs no rollback, so when the case update
fails the call throws, the case row keeps its old running total, and the
payment log row persists: partial state remains. -/
theorem recordPayment_log_persists_on_update_failure (caseId employeeId notes : String)
    (a : ℚ) (db : CaseDB) :
    (recordPayment caseId employeeId a notes true true false db).1
        = Except.error "Failed to update case" ∧
    (recordPayment caseId employeeId a notes true true false db).2.theCase = db.theCase ∧
    (recordPayment caseId employeeId a notes true true false db).2.logs
        = db.logs ++ [paymentLogEntry caseId employeeId a notes] :=
  ⟨rfl, rfl, rfl⟩

/-- Counterexample to claim C6 as stated: on a case whose outstanding
amount is missing (unknown), a payment of 100 auto-closes the case. -/
theorem recordPayment_unknown_outstanding_cex :
    dbU.theCase.outstanding_amount = none ∧
    dbU.theCase.case_status = some "pending" ∧
    ((recordPayment "c1" "e1" 100 "note" true true true dbU).2.theCase.case_status
        = some "closed") := by
  refine ⟨rfl, rfl, ?_⟩
  have hp : jsParseFloat (jsOrZero dbU.theCase.outstanding_amount) = some 0 := by
    rw [show jsParseFloat (jsOrZero dbU.theCase.outstanding_amount)
        = some (mkRat 0 1) from rfl]
    norm_num [mkRat]
  have htot : dbU.theCase.total_collected_amount.getD 0 = 0 := rfl
  have hsc : rpShouldClose 100 dbU = true := by
    simp only [rpShouldClose, hp, htot]
    norm_num
  rw [recordPayment_ok_eq]
  simp [rpNewCase, hsc]

/-- Claim C6 amended: a missing or empty outstanding_amount defaults to
the string "0", so the remaining balance is 0 - newTotal and any payment
making the new total nonnegative (in particular any positive payment on a
nonnegative running total) auto-closes the case; a non-empty outstanding
string with no numeric prefix parses to NaN, every NaN comparison is
false, and the case statuses are left unchanged. -/
theorem recordPayment_outstanding_fallback (caseId employeeId notes : String)
    (a : ℚ) (db : CaseDB) :
    ((db.theCase.outstanding_amount = none ∨ db.theCase.outstanding_amount = some "") →
      0 ≤ db.theCase.total_collected_amount.getD 0 → 0 < a →
      (recordPayment caseId employeeId a notes true true true db).2.theCase.case_status
          = some "closed" ∧
      (recordPayment caseId employeeId a notes true true true db).2.theCase.status
          = some Status.closed) ∧
    (∀ s, db.theCase.outstanding_amount = some s → s ≠ "" → jsParseFloat s = none →
      (recordPayment caseId employeeId a notes true true true db).2.theCase.case_status
          = db.theCase.case_status ∧
      (recordPayment caseId employeeId a notes true true true db).2.theCase.status
          = db.theCase.status) := by
  constructor
  · intro h0 hge hpos
    have hp : jsParseFloat (jsOrZero db.theCase.outstanding_amount) = some (mkRat 0 1) := by
      rcases h0 with h | h <;> rw [h] <;> rfl
    have h0q : ((mkRat 0 1 : ℚ)) = 0 := by norm_num [mkRat]
    have hsc : rpShouldClose a db = true := by
      simp only [rpShouldClose, hp, h0q, decide_eq_true_eq]
      linarith
    rw [recordPayment_ok_eq]
    simp [rpNewCase, hsc]
  · intro s hs hne hparse
    have heff : jsOrZero db.theCase.outstanding_amount = s := by
      rw [hs]
      simp [jsOrZero, hne]
    have hsc : rpShouldClose a db = false := by
      simp [rpShouldClose, heff, hparse]
    rw [recordPayment_ok_eq]
    simp [rpNewCase, hsc]

/-- Witness for the amended C6 at two concrete cases: a missing
outstanding amount closes on a payment of 100, a non-numeric outstanding
amount leaves both statuses unchanged. -/
theorem recordPayment_outstanding_fallback_witness :
    ((recordPayment "c1" "e1" 100 "n" true true true dbU).2.theCase.case_status
        = some "closed") ∧
    ((recordPayment "c2" "e1" 100 "n" true true true dbN).2.theCase.case_status
        = dbN.theCase.case_status) := by
  constructor
  · exact ((recordPayment_outstanding_fallback "c1" "e1" "n" 100 dbU).1
      (Or.inl rfl) (le_of_eq rfl) (by norm_num)).1
  · exact ((recordPayment_outstanding_fallback "c2" "e1" "n" 100 dbN).2
      "abc" rfl (by decide) (by decide)).1

/-! ### Assignment engine theorems -/

/-- Counterexample to claim C3 as stated: on a case with lifecycle status
closed, Assign succeeds and mutates the assignment fields and the working
status, and Unassign succeeds as well — there is no conflict failure. -/
theorem assignCase_closed_cex :
    closedCase.case_status = some "closed" ∧
    assignCase closedCase ⟨some "t1"⟩ [tele1]
      = Except.ok
          { closedCase with
            telecaller_id := some "t1"
            assigned_employee_id := some "E1"
            status := some Status.assigned } ∧
    assignCase closedCase ⟨none⟩ [tele1]
      = Except.ok
          { closedCase with
            telecaller_id := none
            assigned_employee_id := none
            status := some Status.new } :=
  ⟨rfl, rfl, rfl⟩

/-- Claim C3 amended: assignCase never consults case_status, so on a
closed case Assign succeeds (mutating telecaller_id, the denormalized
assigned_employee_id and the working status) whenever the telecaller
resolves in the directory, and Unassign always succeeds and resets the
working status to new. -/
theorem assignCase_ignores_case_status (c : CustomerCase) (employees : List Employee)
    (tid : String) (tel : Employee)
    (hclosed : c.case_status = some "closed")
    (hfind : employees.find? (fun e => e.id == tid) = some tel) :
    assignCase c ⟨some tid⟩ employees
      = Except.ok
          { c with
            telecaller_id := some tid
            assigned_employee_id := if tel.emp_id == "" then none else some tel.emp_id
            status := some Status.assigned } ∧
    assignCase c ⟨none⟩ employees
      = Except.ok
          { c with
            telecaller_id := none
            assigned_employee_id := none
            status := some Status.new } := by
  constructor
  · simp [assignCase, hfind]
  · rfl

/-- Witness for the amended C3 at the closed fixture case and the
one-entry directory. -/
theorem assignCase_ignores_case_status_witness :
    assignCase closedCase ⟨some "t1"⟩ [tele1]
      = Except.ok
          { closedCase with
            telecaller_id := some "t1"
            assigned_employee_id := if tele1.emp_id == "" then none else some tele1.emp_id
            status := some Status.assigned } ∧
    assignCase closedCase ⟨none⟩ [tele1]
      = Except.ok
          { closedCase with
            telecaller_id := none
            assigned_employee_id := none
            status := some Status.new } :=
  assignCase_ignores_case_status closedCase [tele1] "t1" tele1 rfl rfl

/-! ### Call/status log theorems -/

/-- Counterexample to claim C7 as stated: logging a call on a closed case
moves the working status backward, from closed to in_progress. -/
theorem handleStatusUpdate_regresses_closed_cex :
    closedCase.status = some Status.closed ∧
    handleStatusUpdateSubmit (some "c4") (some "u1") "RNR" "" "" "no answer"
        ⟨closedCase, []⟩
      = Except.ok
          ⟨{ closedCase with status := some Status.in_progress },
            [statusLogEntry "c4" "u1" "RNR" "" "" "no answer"]⟩ :=
  ⟨rfl, rfl⟩

/-- Claim C7 amended: a valid status-update submit appends the immutable
call-log row and then unconditionally sets the working status to
in_progress, whatever it was before: from assigned this is the advance to
first contact, but from closed (or any other state) the status is also
overwritten, so logging can move the status backward. -/
theorem handleStatusUpdate_sets_in_progress (caseId userId callStatus ptpDate ptpTime
    remarks : String) (db : CaseDB)
    (hcs : callStatus ≠ "") (hrem : jsTrim remarks ≠ "")
    (hptp : (callStatus = "PTP" ∨ callStatus = "FUTURE_PTP") → ptpDate ≠ "") :
    handleStatusUpdateSubmit (some caseId) (some userId) callStatus ptpDate ptpTime
        remarks db
      = Except.ok
          ⟨{ db.theCase with status := some Status.in_progress },
            db.logs ++ [statusLogEntry caseId userId callStatus ptpDate ptpTime remarks]⟩ := by
  have h1 : (callStatus == "" || jsTrim remarks == "") = false := by
    simp [hcs, hrem]
  have h2 : ((callStatus == "PTP" || callStatus == "FUTURE_PTP") && ptpDate == "")
      = false := by
    rcases eq_or_ne callStatus "PTP" with h | h
    · simp [h, hptp (Or.inl h)]
    · rcases eq_or_ne callStatus "FUTURE_PTP" with h' | h'
      · simp [h', hptp (Or.inr h')]
      · simp [h, h']
  simp [handleStatusUpdateSubmit, h1, h2]

/-- Witness for the amended C7: logging an outcome on the assigned fixture
case advances its working status to in_progress. -/
theorem handleStatusUpdate_sets_in_progress_witness :
    handleStatusUpdateSubmit (some "c5") (some "u1") "RNR" "" "" "called" ⟨assignedCase, []⟩
      = Except.ok
          ⟨{ assignedCase with status := some Status.in_progress },
            [statusLogEntry "c5" "u1" "RNR" "" "" "called"]⟩ := by
  have h := handleStatusUpdate_sets_in_progress "c5" "u1" "RNR" "" "" "called"
    ⟨assignedCase, []⟩ (by decide) (by decide) (by decide)
  simpa using h

/-! ### Bulk reconciliation theorems -/

/-- Counter accounting of the row loop: every row increments exactly one
of autoAssigned/unassigned (before the upsert), and exactly one of
totalUploaded/errors (after it). -/
theorem bulkLoop_counters (telecallerMap : List (String × String))
    (upsertOk : Nat → Bool) (cases : List CustomerCase) :
    ∀ i : Nat,
      ((bulkLoop telecallerMap upsertOk i cases).1.autoAssigned
          + (bulkLoop telecallerMap upsertOk i cases).1.unassigned = cases.length) ∧
      ((bulkLoop telecallerMap upsertOk i cases).1.totalUploaded
          + (bulkLoop telecallerMap upsertOk i cases).1.errors.length = cases.length) := by
  induction cases with
  | nil => intro i; exact ⟨rfl, rfl⟩
  | cons c rest ih =>
    intro i
    have hrest := ih (i + 1)
    simp only [bulkLoop]
    rcases h1 : (processRowAssign telecallerMap c).2 <;> rcases h2 : upsertOk i <;>
      simp only [h1, h2, Bool.false_eq_true, if_false, if_true, List.length_cons,
        List.length] <;>
      constructor <;> omega

/-- Counterexample to claim C2 as stated: a single row whose upsert fails
gives autoAssigned + unassigned = 1 while totalUploaded = 0, so the two
are not equal. -/
theorem createBulkCases_claim_cex :
    ¬ ((createBulkCases [] [dbU.theCase] (fun _ => false)).1.autoAssigned
        + (createBulkCases [] [dbU.theCase] (fun _ => false)).1.unassigned
        = (createBulkCases [] [dbU.theCase] (fun _ => false)).1.totalUploaded) := by
  decide

/-- Claim C2 amended: for every bulk upload of n rows, autoAssigned +
unassigned = n (the counters are incremented before the upsert, also for
rows whose upsert fails) and totalUploaded + length(errors) = n; hence
autoAssigned + unassigned = totalUploaded exactly when no row failed. -/
theorem createBulkCases_counter_identities (telecallerMap : List (String × String))
    (cases : List CustomerCase) (upsertOk : Nat → Bool) :
    ((createBulkCases telecallerMap cases upsertOk).1.autoAssigned
        + (createBulkCases telecallerMap cases upsertOk).1.unassigned
        = cases.length) ∧
    ((createBulkCases telecallerMap cases upsertOk).1.totalUploaded
        + (createBulkCases telecallerMap cases upsertOk).1.errors.length
        = cases.length) :=
  bulkLoop_counters telecallerMap upsertOk cases 0

/-- Claim C9: a row whose truthy EMPID resolves in the active-telecaller
roster is upserted with telecaller_id set to the resolved identifier, the
denormalized assigned_employee_id set to the matched EMPID string and
working status assigned, counting as auto-assigned; any other row is
upserted with both assignment fields cleared and working status new,
counting as unassigned. -/
theorem bulk_row_auto_assignment (telecallerMap : List (String × String))
    (upsertOk : Nat → Bool) (c : CustomerCase) :
    (∀ empid telId, c.case_data_EMPID = some empid → empid ≠ "" →
      lookupTelecaller telecallerMap empid = some telId →
      processRowAssign telecallerMap c
          = ({ c with
                telecaller_id := some telId
                assigned_employee_id := some empid
                status := some Status.assigned }, true) ∧
      (createBulkCases telecallerMap [c] upsertOk).1.autoAssigned = 1 ∧
      (createBulkCases telecallerMap [c] upsertOk).1.unassigned = 0) ∧
    ((¬ ∃ empid telId, c.case_data_EMPID = some empid ∧ empid ≠ "" ∧
        lookupTelecaller telecallerMap empid = some telId) →
      processRowAssign telecallerMap c = (clearAssignment c, false) ∧
      (createBulkCases telecallerMap [c] upsertOk).1.autoAssigned = 0 ∧
      (createBulkCases telecallerMap [c] upsertOk).1.unassigned = 1) := by
  constructor
  · intro empid telId h1 h2 h3
    have hpr : processRowAssign telecallerMap c
        = ({ c with
              telecaller_id := some telId
              assigned_employee_id := some empid
              status := some Status.assigned }, true) := by
      simp [processRowAssign, h1, h2, h3]
    refine ⟨hpr, ?_, ?_⟩ <;>
      rcases h4 : upsertOk 0 <;>
      simp [createBulkCases, bulkLoop, hpr, h4]
  · intro hno
    have hpr : processRowAssign telecallerMap c = (clearAssignment c, false) := by
      rcases hE : c.case_data_EMPID with _ | s
      · simp [processRowAssign, hE]
      · rcases eq_or_ne s "" with hs | hs
        · simp [processRowAssign, hE, hs]
        · rcases hl : lookupTelecaller telecallerMap s with _ | t
          · simp [processRowAssign, hE, hs, hl]
          · exact absurd ⟨s, t, hE, hs, hl⟩ hno
    refine ⟨hpr, ?_, ?_⟩ <;>
      rcases h4 : upsertOk 0 <;>
      simp [createBulkCases, bulkLoop, hpr, h4]

/-- Witness for C9: a row carrying EMPID "E1" with "E1" in the roster is
auto-assigned; the fixture row with no EMPID value is left unassigned. -/
theorem bulk_row_auto_assignment_witness :
    (processRowAssign [("E1", "t1")] assignedCase
        = ({ assignedCase with
              telecaller_id := some "t1"
              assigned_employee_id := some "E1"
              status := some Status.assigned }, true) ∧
      (createBulkCases [("E1", "t1")] [assignedCase] (fun _ => true)).1.autoAssigned = 1 ∧
      (createBulkCases [("E1", "t1")] [assignedCase] (fun _ => true)).1.unassigned = 0) ∧
    (processRowAssign [("E1", "t1")] dbU.theCase = (clearAssignment dbU.theCase, false) ∧
      (createBulkCases [("E1", "t1")] [dbU.theCase] (fun _ => true)).1.autoAssigned = 0 ∧
      (createBulkCases [("E1", "t1")] [dbU.theCase] (fun _ => true)).1.unassigned = 1) := by
  constructor
  · exact (bulk_row_auto_assignment [("E1", "t1")] (fun _ => true) assignedCase).1
      "E1" "t1" rfl (by decide) rfl
  · refine (bulk_row_auto_assignment [("E1", "t1")] (fun _ => true) dbU.theCase).2 ?_
    rintro ⟨s, t, hs, -, -⟩
    rw [show dbU.theCase.case_data_EMPID = none from rfl] at hs
    exact Option.noConfusion hs

/-! ### Spreadsheet import theorems -/

/-- The one-column configuration used by the import fixtures. -/
def colsW : List ColumnConfiguration := [{ column_name := "customerName", display_name := "Name" }]

/-- A sheet whose EMPID header sits in the second column. -/
def jdW : List (List Cell) := [[some "Name", some "EMPID"], [some "Rajesh", some "E1"]]

/-- A sheet with one data row whose EMPID cell is empty. -/
def jdD : List (List Cell) :=
  [[some "EMPID", some "Name"], [some "E1", some "A"], [some "", some "B"]]

/-- Counterexample to claim C8 as stated: in a sheet whose first column is
"Name" and whose second column is "EMPID", the EMPID header does not sit
in the first column, yet parseExcelFile succeeds — the identifier column
is located by search over all headers, not required to be first. -/
theorem parseExcelFile_first_column_cex :
    findEmpIdIndex [(some "Name" : Cell), some "EMPID"] = some 1 ∧
    jsLowerTrim (cellStr (([(some "Name" : Cell), some "EMPID"]).getD 0 none)) ≠ "empid" ∧
    parseExcelFile jdW colsW
      = Except.ok [{ EMPID := "E1", fields := [("customerName", "Rajesh")] }] :=
  ⟨rfl, by decide, rfl⟩

/-- Claim C8 amended: parseExcelFile requires some header, at any index,
to resolve case-insensitively and whitespace-trimmed to "EMPID"; whenever
a file with at least one data row has no such header, it fails with the
EMPID-not-found error before any data row is processed (a file without
data rows fails earlier with the empty-file error). -/
theorem parseExcelFile_missing_empid (jd : List (List Cell))
    (cols : List ColumnConfiguration)
    (hlen : 2 ≤ jd.length) (hno : findEmpIdIndex (jd.headD []) = none) :
    parseExcelFile jd cols
      = Except.error "EMPID column not found in Excel file. Please ensure the first column is named \"EMPID\" (case insensitive)." := by
  unfold parseExcelFile
  rw [if_neg (by omega)]
  simp only [hno]

/-- Witness for the amended C8: a sheet whose only header is "Name" is
rejected with the EMPID-not-found error. -/
theorem parseExcelFile_missing_empid_witness :
    parseExcelFile [[(some "Name" : Cell)], [some "x"]] colsW
      = Except.error "EMPID column not found in Excel file. Please ensure the first column is named \"EMPID\" (case insensitive)." :=
  parseExcelFile_missing_empid [[(some "Name" : Cell)], [some "x"]] colsW (by decide) rfl

/-- Claim C10: parseExcelFile silently drops every data row whose EMPID
cell is empty or missing: the returned rows are exactly the kept rows
mapped (no error report exists for the dropped rows, the call still
returns ok), and when some data row fails the keep filter the returned
row count is strictly below the data-row count. -/
theorem parseExcelFile_drops_empty_empid_rows (jd : List (List Cell))
    (cols : List ColumnConfiguration) (out : List ParsedRow) (idx : Nat)
    (hok : parseExcelFile jd cols = Except.ok out)
    (hidx : findEmpIdIndex (jd.headD []) = some idx)
    (hbad : ∃ row ∈ jd.tail, rowKeep idx row = false) :
    out = (jd.tail.filter (fun r => rowKeep idx r)).map
        (mkParsedRow idx (jd.headD []) cols) ∧
    out.length < jd.tail.length := by
  unfold parseExcelFile at hok
  by_cases hlen : jd.length < 2
  · rw [if_pos hlen] at hok
    exact Except.noConfusion hok
  · rw [if_neg hlen] at hok
    simp only [hidx] at hok
    split at hok
    · exact Except.noConfusion hok
    · have hout : ((jd.tail.filter (fun r => rowKeep idx r)).map
          (mkParsedRow idx (jd.headD []) cols)) = out := by
        injection hok
      refine ⟨hout.symm, ?_⟩
      rw [← hout, List.length_map]
      rcases hbad with ⟨row, hmem, hrk⟩
      rcases (List.length_filter_le _ jd.tail).lt_or_eq with h | h
      · exact h
      · exfalso
        have hall := (List.filter_length_eq_length).mp h row hmem
        rw [hrk] at hall
        exact Bool.noConfusion hall

/-- Witness for C10: in the fixture sheet the row with an empty EMPID cell
is dropped, so one row comes back out of two data rows. -/
theorem parseExcelFile_drops_empty_empid_rows_witness :
    ([{ EMPID := "E1", fields := [("customerName", "A")] }] : List ParsedRow)
        = (jdD.tail.filter (fun r => rowKeep 0 r)).map
            (mkParsedRow 0 (jdD.headD []) colsW) ∧
    ([{ EMPID := "E1", fields := [("customerName", "A")] }] : List ParsedRow).length
        < jdD.tail.length :=
  parseExcelFile_drops_empty_empid_rows jdD colsW
    [{ EMPID := "E1", fields := [("customerName", "A")] }] 0 rfl rfl
    ⟨[some "", some "B"], by decide, rfl⟩

end Shakti
